import Mathlib

/-!
Verification of the UPF operator charm's reconciliation logic
(`src/charm.py`, `src/kubernetes.py`), shallowly embedded in Lean 4.

The embedding models:
 * the per-container observations read by `_service_is_running` and the
   aggregate status computation `_set_application_status`;
 * the charm state (container connectivity, files, pebble services,
   Kubernetes resources, unit status, relation data, exec outcomes) and
   the event handlers as pure functions producing a new state together
   with a trace of observable side effects.
-/

/-- Pebble service state as returned by `container.get_service`. -/
structure ServiceInfo where
  running : Bool
deriving Repr, DecidableEq, Fintype

/-- Result of `container.get_service`: either the service info, or the
`ModelError` raised when the service is not declared in the plan. -/
inductive GetServiceResult where
  | ok (s : ServiceInfo)
  | modelError
deriving Repr, DecidableEq, Fintype

/-- The observations of one container used by `_service_is_running`:
the connectivity check and the service lookup result. -/
structure ContainerObs where
  canConnect : Bool
  getService : GetServiceResult
deriving Repr, DecidableEq, Fintype

/-- Unit status: `ActiveStatus`, `WaitingStatus(reason)`, or the initial
`MaintenanceStatus` a unit starts in. -/
inductive Status where
  | active
  | waiting (reason : String)
  | maintenance
deriving Repr, DecidableEq

/-- `_service_is_running` from `charm.py`: `False` when the container is
not connectable, `False` when `get_service` raises `ModelError`,
otherwise the service's running flag. -/
def service_is_running (c : ContainerObs) : Bool :=
  if !c.canConnect then
    false
  else
    match c.getService with
    | .modelError => false
    | .ok s => s.running

def bessdRunMsg : String := "Waiting for bessd service to run"
def routectlRunMsg : String := "Waiting for routectl service to run"
def webRunMsg : String := "Waiting for web service to run"
def pfcpRunMsg : String := "Waiting for pfcp agent service to run"

/-- `_set_application_status` from `charm.py`: check the four containers
in the fixed order bessd, routectl, web, pfcp-agent; the first one whose
service is not running determines the Waiting reason; Active otherwise. -/
def set_application_status (bessd routectl web pfcpAgent : ContainerObs) : Status :=
  if !service_is_running bessd then .waiting bessdRunMsg
  else if !service_is_running routectl then .waiting routectlRunMsg
  else if !service_is_running web then .waiting webRunMsg
  else if !service_is_running pfcpAgent then .waiting pfcpRunMsg
  else .active

/-- Spec-side notion: whether a container reports `connectable`. -/
def connectable (c : ContainerObs) : Bool := c.canConnect

/-- Spec-side notion: whether a container reports `service_running`
(the declared service exists and is running). -/
def reports_service_running (c : ContainerObs) : Bool :=
  match c.getService with
  | .modelError => false
  | .ok s => s.running

/-- `compute_status` as the spec words it: walk the observations in their
fixed priority order, return Waiting with the reason of the first
container that is not `connectable ∧ service_running`, and Active only
when all pass (short-circuit evaluation). -/
def compute_status (obs : List (ContainerObs × String)) : Status :=
  match obs with
  | [] => .active
  | (c, reason) :: rest =>
    if connectable c && reports_service_running c then compute_status rest
    else .waiting reason

/-- The four observations in the fixed priority order, paired with the
waiting reason each produces. -/
def statusObsList (b r w p : ContainerObs) : List (ContainerObs × String) :=
  [(b, bessdRunMsg), (r, routectlRunMsg), (w, webRunMsg), (p, pfcpRunMsg)]

theorem service_is_running_eq (c : ContainerObs) :
    service_is_running c = (connectable c && reports_service_running c) := by
  rcases c with ⟨cc, gs⟩
  rcases cc <;> rcases gs with ⟨⟨_ | _⟩⟩ | _ <;> rfl

/-! ## Charm state and effect traces -/

/-- Observable side effects performed by the handlers. -/
inductive Effect where
  | writeFile (path : String)
  | createNAD (name : String)
  | deleteNAD (name : String)
  | patchStatefulset
  | exec (command : List String)
  | addLayer (container : String)
  | replan (container : String)
  | setWaiting (reason : String)
  | recomputeStatus
  | publish (url : String)
  | deferEvent
deriving Repr, DecidableEq

/-- Errors a handler can raise: `NotImplementedError` for unsupported
feature flags, `ExecError` from a one-shot command. -/
inductive CharmError where
  | notImplemented (msg : String)
  | execError (exitCode : Int) (stderr : String)
deriving Repr, DecidableEq

/-- Outcome of a one-shot command in the container. -/
inductive ExecResult where
  | ok
  | err (exitCode : Int) (stderr : String)
deriving Repr, DecidableEq

/-- One workload container: connectivity, existing file paths, and the
pebble services declared in its plan with their running flag. -/
structure ContainerModel where
  canConnect : Bool
  files : List String
  services : List (String × Bool)
deriving Repr, DecidableEq

/-- The Kubernetes state the charm observes and mutates: which
NetworkAttachmentDefinitions exist, and whether the statefulset carries
the multus patch. -/
structure K8sState where
  nads : List String
  statefulsetPatched : Bool
deriving Repr, DecidableEq

/-- The whole state a handler invocation reads and writes. The four
`ExecResult` fields model the outcome the environment gives to each
one-shot command run in the bessd container. -/
structure CharmState where
  useSriov : Bool
  useHugepages : Bool
  bessd : ContainerModel
  routectl : ContainerModel
  web : ContainerModel
  pfcpAgent : ContainerModel
  k8s : K8sState
  status : Status
  relations : List (Option String)
  appName : String
  namespaceName : String
  ranRouteExec : ExecResult
  defaultRouteExec : ExecResult
  iptablesExec : ExecResult
  poststartExec : ExecResult
deriving Repr, DecidableEq

/-- Result of running a handler: either a normal return or a raised
exception; both carry the state reached and the effects performed. -/
inductive HandlerOutcome where
  | ok (s : CharmState) (trace : List Effect)
  | error (e : CharmError) (s : CharmState) (trace : List Effect)
deriving Repr, DecidableEq

/-- The state a handler left behind, raised or not. -/
def HandlerOutcome.state : HandlerOutcome → CharmState
  | .ok s _ => s
  | .error _ s _ => s

/-- The effect trace a handler produced, raised or not. -/
def HandlerOutcome.trace : HandlerOutcome → List Effect
  | .ok _ tr => tr
  | .error _ _ tr => tr

/-- Whether the handler raised. -/
def HandlerOutcome.isError : HandlerOutcome → Bool
  | .ok _ _ => false
  | .error _ _ _ => true

/-- Sequencing of handlers, as `_on_config_changed` chains into the
pebble-ready handlers; an exception propagates. -/
def HandlerOutcome.andThen (h : HandlerOutcome) (f : CharmState → HandlerOutcome) :
    HandlerOutcome :=
  match h with
  | .ok s tr =>
    match f s with
    | .ok s2 tr2 => .ok s2 (tr ++ tr2)
    | .error e s2 tr2 => .error e s2 (tr ++ tr2)
  | .error e s tr => .error e s tr

/-! ## Kubernetes operations (`kubernetes.py`) -/

def accessNadName : String := "access-net"
def coreNadName : String := "core-net"

/-- `network_attachment_definition_created`: the existence check backing
the idempotence guards. -/
def network_attachment_definition_created (k : K8sState) (name : String) : Bool :=
  decide (name ∈ k.nads)

/-- `create_network_attachement_definition` (sic): unconditionally create
the named NetworkAttachmentDefinition. -/
def create_network_attachement_definition (k : K8sState) (name : String) :
    K8sState × List Effect :=
  ({ k with nads := name :: k.nads }, [.createNAD name])

/-- `create_network_attachment_definitions`: create access-net then
core-net, each only if the existence check reports it absent. -/
def create_network_attachment_definitions (k : K8sState) : K8sState × List Effect :=
  let acc :=
    if network_attachment_definition_created k accessNadName then (k, [])
    else create_network_attachement_definition k accessNadName
  let core :=
    if network_attachment_definition_created acc.1 coreNadName then (acc.1, [])
    else create_network_attachement_definition acc.1 coreNadName
  (core.1, acc.2 ++ core.2)

/-- `patch_statefulset`: skip when the patched check reports the multus
patch already applied; otherwise apply it. -/
def patch_statefulset (k : K8sState) : K8sState × List Effect :=
  if k.statefulsetPatched then (k, [])
  else ({ k with statefulsetPatched := true }, [.patchStatefulset])

/-- `delete_network_attachment_definition`: unconditionally delete the
named NetworkAttachmentDefinition. -/
def delete_network_attachment_definition (k : K8sState) (name : String) :
    K8sState × List Effect :=
  ({ k with nads := k.nads.filter (fun n => !(n == name)) }, [.deleteNAD name])

/-- `delete_network_attachment_definitions`: delete access-net then
core-net, each only if the existence check reports it present. -/
def delete_network_attachment_definitions (k : K8sState) : K8sState × List Effect :=
  let acc :=
    if network_attachment_definition_created k accessNadName then
      delete_network_attachment_definition k accessNadName
    else (k, [])
  let core :=
    if network_attachment_definition_created acc.1 coreNadName then
      delete_network_attachment_definition acc.1 coreNadName
    else (acc.1, [])
  (core.1, acc.2 ++ core.2)

/-! ## Container helpers (`charm.py`) -/

def bessdConfigPath : String := "/etc/bess/conf/upf.json"
def poststartPath : String := "/etc/bess/conf/bessd-poststart.sh"
def pfcpConfigPath : String := "/tmp/conf/upf.json"

def bessdServiceName : String := "bessd"
def routectlServiceName : String := "routectl"
def webServiceName : String := "web"
def pfcpServiceName : String := "pfcp-agent"

/-- `container.get_service`: look the service up in the declared plan;
`ModelError` when it is not declared. -/
def ContainerModel.lookupService (c : ContainerModel) (name : String) : GetServiceResult :=
  match c.services.find? (fun p => p.1 == name) with
  | some p => .ok ⟨p.2⟩
  | none => .modelError

/-- The observations `_service_is_running` reads for one container. -/
def obsOf (c : ContainerModel) (name : String) : ContainerObs :=
  ⟨c.canConnect, c.lookupService name⟩

/-- `container.exists` on a path. -/
def ContainerModel.hasFile (c : ContainerModel) (path : String) : Bool :=
  decide (path ∈ c.files)

/-- `container.push`: (over)write a file in the container. -/
def ContainerModel.pushFile (c : ContainerModel) (path : String) : ContainerModel :=
  { c with files := path :: c.files }

/-- `container.add_layer` with `combine=True`: declare the service in the
plan, keeping its running flag if it was already declared. -/
def ContainerModel.addLayer (c : ContainerModel) (svc : String) : ContainerModel :=
  if (c.services.find? (fun p => p.1 == svc)).isSome then c
  else { c with services := c.services ++ [(svc, false)] }

/-- `container.replan`: start the enabled services of the plan. -/
def ContainerModel.replan (c : ContainerModel) : ContainerModel :=
  { c with services := c.services.map (fun p => (p.1, true)) }

/-- `_bessd_config_file_is_written`. -/
def bessd_config_file_is_written (s : CharmState) : Bool :=
  s.bessd.hasFile bessdConfigPath

/-- `_podstart_file_is_written`. -/
def podstart_file_is_written (s : CharmState) : Bool :=
  s.bessd.hasFile poststartPath

/-- `_pfcp_agent_config_file_is_written`. -/
def pfcp_agent_config_file_is_written (s : CharmState) : Bool :=
  s.pfcpAgent.hasFile pfcpConfigPath

/-- `_upf_hostname`: hostname derived from app name and model name. -/
def upf_hostname (appName namespaceName : String) : String :=
  appName ++ "." ++ namespaceName ++ ".svc.cluster.local"

/-- `_write_config_file`: render and push the config into bessd. -/
def write_config_file (s : CharmState) : CharmState × List Effect :=
  ({ s with bessd := s.bessd.pushFile bessdConfigPath }, [.writeFile bessdConfigPath])

/-- `_write_poststart_script`: push the startup script into bessd. -/
def write_poststart_script (s : CharmState) : CharmState × List Effect :=
  ({ s with bessd := s.bessd.pushFile poststartPath }, [.writeFile poststartPath])

/-- `_update_upf_relation`: publish the hostname as `url` on every
relation on the `upf` endpoint. -/
def update_upf_relation (s : CharmState) : CharmState × List Effect :=
  ({ s with relations := s.relations.map (fun _ => some (upf_hostname s.appName s.namespaceName)) },
   [.publish (upf_hostname s.appName s.namespaceName)])

/-- `_set_application_status` applied to the current charm state. -/
def aggregate_status (s : CharmState) : Status :=
  set_application_status (obsOf s.bessd bessdServiceName) (obsOf s.routectl routectlServiceName)
    (obsOf s.web webServiceName) (obsOf s.pfcpAgent pfcpServiceName)

/-! ## One-shot commands -/

def ranRouteCommand : List String :=
  ["ip", "route", "replace", "192.168.251.0/24", "via", "192.168.252.1"]

def defaultRouteCommand : List String :=
  ["ip", "route", "replace", "default", "via", "192.168.250.1", "metric", "110"]

def iptablesCommand : List String :=
  ["iptables", "-I", "OUTPUT", "-p", "icmp", "--icmp-type", "port-unreachable", "-j", "DROP"]

def poststartCommand : List String :=
  ["/bin/bash", "-c", "/etc/bess/conf/bessd-poststart.sh"]

/-- `_prepare_bessd_container`: run `_set_ran_route`, `_set_default_route`
and `_set_ip_tables` in order; each raises `ExecError` on a non-zero
exit, aborting the sequence. Returns the commands attempted and the
error, if any. -/
def prepare_bessd_container (s : CharmState) : List Effect × Option CharmError :=
  match s.ranRouteExec with
  | .err c m => ([.exec ranRouteCommand], some (.execError c m))
  | .ok =>
    match s.defaultRouteExec with
    | .err c m => ([.exec ranRouteCommand, .exec defaultRouteCommand], some (.execError c m))
    | .ok =>
      match s.iptablesExec with
      | .err c m =>
        ([.exec ranRouteCommand, .exec defaultRouteCommand, .exec iptablesCommand],
         some (.execError c m))
      | .ok =>
        ([.exec ranRouteCommand, .exec defaultRouteCommand, .exec iptablesCommand], none)

/-! ## Event handlers (`charm.py`) -/

def sriovMsg : String := "SR-IOV support is not implemented yet"
def hugepagesMsg : String := "Hugepages support is not implemented yet"
def bessdConnMsg : String := "Waiting for bessd container to be ready"
def routectlConnMsg : String := "Waiting for routectl container to be ready"
def webConnMsg : String := "Waiting for web container to be ready"
def pfcpConnMsg : String := "Waiting for pfcp agent container to be ready"
def configFileMsg : String := "Waiting for config file to be written"
def podstartMsg : String := "Waiting for podstart file to be written"
def patchWaitMsg : String := "Waiting for statefulset to be patched"
def prepWaitMsg : String := "Waiting to be able to prepare bessd container"
def bessdRunningMsg : String := "Waiting for bessd service to be running"

/-- `_on_install`: validate the feature flags, then create the network
attachment definitions and patch the statefulset. -/
def on_install (s : CharmState) : HandlerOutcome :=
  if s.useSriov then .error (.notImplemented sriovMsg) s []
  else if s.useHugepages then .error (.notImplemented hugepagesMsg) s []
  else
    let nads := create_network_attachment_definitions s.k8s
    let patched := patch_statefulset nads.1
    .ok { s with k8s := patched.1 } (nads.2 ++ patched.2)

/-- `_on_remove`: delete the network attachment definitions. -/
def on_remove (s : CharmState) : HandlerOutcome :=
  let deleted := delete_network_attachment_definitions s.k8s
  .ok { s with k8s := deleted.1 } deleted.2

/-- `_on_bessd_pebble_ready`: ordered precondition chain, then the
one-shot command sequence (an `ExecError` is caught: Waiting + defer),
then the pebble layer and replan, the poststart script (an `ExecError`
here propagates), the status recompute, and the relation publish. -/
def on_bessd_pebble_ready (s : CharmState) : HandlerOutcome :=
  if s.bessd.canConnect = false then
    .ok { s with status := .waiting bessdConnMsg } [.setWaiting bessdConnMsg, .deferEvent]
  else if bessd_config_file_is_written s = false then
    .ok { s with status := .waiting configFileMsg } [.setWaiting configFileMsg]
  else if podstart_file_is_written s = false then
    .ok { s with status := .waiting podstartMsg } [.setWaiting podstartMsg]
  else if s.k8s.statefulsetPatched = false then
    .ok { s with status := .waiting patchWaitMsg } [.setWaiting patchWaitMsg, .deferEvent]
  else
    match prepare_bessd_container s with
    | (tr, some _) =>
      .ok { s with status := .waiting prepWaitMsg } (tr ++ [.setWaiting prepWaitMsg, .deferEvent])
    | (tr, none) =>
      let s1 := { s with bessd := (s.bessd.addLayer bessdServiceName).replan }
      let tr1 := tr ++ [.addLayer bessdServiceName, .replan bessdServiceName,
        .exec poststartCommand]
      match s.poststartExec with
      | .err c m => .error (.execError c m) s1 tr1
      | .ok =>
        let s2 := { s1 with status := aggregate_status s1 }
        let published := update_upf_relation s2
        .ok published.1 (tr1 ++ [.recomputeStatus] ++ published.2)

/-- `_on_routectl_pebble_ready`. -/
def on_routectl_pebble_ready (s : CharmState) : HandlerOutcome :=
  if s.routectl.canConnect = false then
    .ok { s with status := .waiting routectlConnMsg } [.setWaiting routectlConnMsg, .deferEvent]
  else if s.k8s.statefulsetPatched = false then
    .ok { s with status := .waiting patchWaitMsg } [.setWaiting patchWaitMsg, .deferEvent]
  else
    let s1 := { s with routectl := (s.routectl.addLayer routectlServiceName).replan }
    .ok { s1 with status := aggregate_status s1 }
      [.addLayer routectlServiceName, .replan routectlServiceName, .recomputeStatus]

/-- `_on_web_pebble_ready`. -/
def on_web_pebble_ready (s : CharmState) : HandlerOutcome :=
  if s.web.canConnect = false then
    .ok { s with status := .waiting webConnMsg } [.setWaiting webConnMsg, .deferEvent]
  else if s.k8s.statefulsetPatched = false then
    .ok { s with status := .waiting patchWaitMsg } [.setWaiting patchWaitMsg, .deferEvent]
  else
    let s1 := { s with web := (s.web.addLayer webServiceName).replan }
    .ok { s1 with status := aggregate_status s1 }
      [.addLayer webServiceName, .replan webServiceName, .recomputeStatus]

/-- `_on_pfcp_agent_pebble_ready`. -/
def on_pfcp_agent_pebble_ready (s : CharmState) : HandlerOutcome :=
  if s.pfcpAgent.canConnect = false then
    .ok { s with status := .waiting pfcpConnMsg } [.setWaiting pfcpConnMsg, .deferEvent]
  else if pfcp_agent_config_file_is_written s = false then
    .ok { s with status := .waiting configFileMsg } [.setWaiting configFileMsg, .deferEvent]
  else if service_is_running (obsOf s.bessd bessdServiceName) = false then
    .ok { s with status := .waiting bessdRunningMsg } [.setWaiting bessdRunningMsg, .deferEvent]
  else if s.k8s.statefulsetPatched = false then
    .ok { s with status := .waiting patchWaitMsg } [.setWaiting patchWaitMsg, .deferEvent]
  else
    let s1 := { s with pfcpAgent := (s.pfcpAgent.addLayer pfcpServiceName).replan }
    .ok { s1 with status := aggregate_status s1 }
      [.addLayer pfcpServiceName, .replan pfcpServiceName, .recomputeStatus]

/-- `_on_config_changed`: validate the feature flags, require the bessd
container connectable (else Waiting + defer), write the config and the
poststart script, then re-run the bessd and pfcp-agent ready handlers. -/
def on_config_changed (s : CharmState) : HandlerOutcome :=
  if s.useSriov then .error (.notImplemented sriovMsg) s []
  else if s.useHugepages then .error (.notImplemented hugepagesMsg) s []
  else if s.bessd.canConnect = false then
    .ok { s with status := .waiting bessdConnMsg } [.setWaiting bessdConnMsg, .deferEvent]
  else
    let w1 := write_config_file s
    let w2 := write_poststart_script w1.1
    ((HandlerOutcome.ok w2.1 (w1.2 ++ w2.2)).andThen on_bessd_pebble_ready).andThen
      on_pfcp_agent_pebble_ready

/-- `_on_upf_relation_joined`: no-op unless the bessd service is
reported running; otherwise publish the hostname. -/
def on_upf_relation_joined (s : CharmState) : HandlerOutcome :=
  if service_is_running (obsOf s.bessd bessdServiceName) = false then .ok s []
  else
    let published := update_upf_relation s
    .ok published.1 published.2

/-! ## Concrete states used by witnesses and counterexamples -/

/-- A fresh deployment: all containers connectable, nothing written,
nothing created or patched, one empty relation. -/
def baseState : CharmState :=
  { useSriov := false
    useHugepages := false
    bessd := ⟨true, [], []⟩
    routectl := ⟨true, [], []⟩
    web := ⟨true, [], []⟩
    pfcpAgent := ⟨true, [], []⟩
    k8s := ⟨[], false⟩
    status := .maintenance
    relations := [none]
    appName := "upf-operator"
    namespaceName := "whatever"
    ranRouteExec := .ok
    defaultRouteExec := .ok
    iptablesExec := .ok
    poststartExec := .ok }

/-- Like `baseState`, but the bessd container is not connectable. -/
def notConnState : CharmState := { baseState with bessd := ⟨false, [], []⟩ }

/-- All `_on_bessd_pebble_ready` preconditions satisfied, but the first
one-shot command exits non-zero. -/
def prepFailState : CharmState :=
  { baseState with
    bessd := ⟨true, [bessdConfigPath, poststartPath], []⟩
    k8s := ⟨[coreNadName, accessNadName], true⟩
    ranRouteExec := .err 1 "ran route failed" }

/-- The bessd service is declared and running. -/
def bessdRunningState : CharmState :=
  { baseState with bessd := ⟨true, [bessdConfigPath, poststartPath], [(bessdServiceName, true)]⟩ }

/-- Like `baseState`, but the SR-IOV flag is set. -/
def sriovState : CharmState := { baseState with useSriov := true }

/-- All `_on_bessd_pebble_ready` preconditions satisfied, with the first
one-shot command succeeding and the second exiting non-zero. -/
def prepFailState2 : CharmState :=
  { prepFailState with
    ranRouteExec := ExecResult.ok
    defaultRouteExec := ExecResult.err 2 "default route failed" }

/-! ## Claims -/

/-- C1: the aggregate status computation checks the four containers in
the fixed order bessd → routectl → web → pfcp-agent; for every
combination of observations it returns Waiting with the reason of the
first container in that order that is not both connectable and
service-running (short-circuit), and returns Active iff all four are. -/
theorem set_application_status_matches_spec :
    ∀ b r w p : ContainerObs,
      set_application_status b r w p = compute_status (statusObsList b r w p) ∧
      (set_application_status b r w p = Status.active ↔
        (connectable b && reports_service_running b) = true ∧
        (connectable r && reports_service_running r) = true ∧
        (connectable w && reports_service_running w) = true ∧
        (connectable p && reports_service_running p) = true) := by
  intro b r w p
  rcases hb : connectable b && reports_service_running b <;>
    rcases hr : connectable r && reports_service_running r <;>
    rcases hw : connectable w && reports_service_running w <;>
    rcases hp : connectable p && reports_service_running p <;>
    simp [set_application_status, service_is_running_eq, hb, hr, hw, hp,
      compute_status, statusObsList]

/-- C10: the service-running check is total — when the container is not
connectable or the service lookup raises `ModelError` it returns `false`
rather than raising — and the aggregate status computation always
assigns a status, Active or Waiting, on every input. -/
theorem service_is_running_total :
    (∀ c : ContainerObs,
      c.canConnect = false ∨ c.getService = GetServiceResult.modelError →
        service_is_running c = false) ∧
    (∀ b r w p : ContainerObs,
      set_application_status b r w p = Status.active ∨
        ∃ reason, set_application_status b r w p = Status.waiting reason) := by
  constructor
  · rintro ⟨cc, gs⟩ (h | h)
    · simp only at h
      subst h
      rfl
    · simp only at h
      subst h
      rcases cc <;> rfl
  · intro b r w p
    unfold set_application_status
    split_ifs <;> first | exact Or.inl rfl | exact Or.inr ⟨_, rfl⟩

/-- Witness for C10 at a concrete non-connectable observation. -/
theorem service_is_running_total_witness :
    service_is_running ⟨false, .ok ⟨true⟩⟩ = false :=
  service_is_running_total.1 ⟨false, .ok ⟨true⟩⟩ (Or.inl rfl)

/-! ## Helper lemmas about the Kubernetes operations -/

theorem created_after_create (k : K8sState) (a b : String) (h : ¬ b = a) :
    network_attachment_definition_created (create_network_attachement_definition k a).1 b =
      network_attachment_definition_created k b := by
  simp [network_attachment_definition_created, create_network_attachement_definition,
    List.mem_cons, h]

theorem created_after_delete (k : K8sState) (a b : String) (h : ¬ b = a) :
    network_attachment_definition_created (delete_network_attachment_definition k a).1 b =
      network_attachment_definition_created k b := by
  simp [network_attachment_definition_created, delete_network_attachment_definition,
    List.mem_filter, h]

theorem create_nads_patched (k : K8sState) :
    (create_network_attachment_definitions k).1.statefulsetPatched = k.statefulsetPatched := by
  unfold create_network_attachment_definitions create_network_attachement_definition
  split <;> dsimp only <;> split <;> rfl

theorem delete_nads_patched (k : K8sState) :
    (delete_network_attachment_definitions k).1.statefulsetPatched = k.statefulsetPatched := by
  unfold delete_network_attachment_definitions delete_network_attachment_definition
  split <;> dsimp only <;> split <;> rfl

theorem patch_statefulset_patched (k : K8sState) :
    (patch_statefulset k).1.statefulsetPatched = true := by
  unfold patch_statefulset
  split <;> simp_all

theorem created_access_after_create (k : K8sState) :
    network_attachment_definition_created (create_network_attachment_definitions k).1
      accessNadName = true := by
  unfold create_network_attachment_definitions create_network_attachement_definition
  split <;> dsimp only <;> split <;>
    simp_all [network_attachment_definition_created, List.mem_cons]

theorem created_core_after_create (k : K8sState) :
    network_attachment_definition_created (create_network_attachment_definitions k).1
      coreNadName = true := by
  unfold create_network_attachment_definitions create_network_attachement_definition
  split <;> dsimp only <;> split <;>
    simp_all [network_attachment_definition_created, List.mem_cons]

theorem create_nads_trace_of_created (k : K8sState)
    (ha : network_attachment_definition_created k accessNadName = true)
    (hc : network_attachment_definition_created k coreNadName = true) :
    (create_network_attachment_definitions k).2 = [] := by
  simp [create_network_attachment_definitions, ha, hc]

theorem patch_trace_of_patched (k : K8sState) (h : k.statefulsetPatched = true) :
    (patch_statefulset k).2 = [] := by
  simp [patch_statefulset, h]

/-! ## Helper lemmas about the handlers -/

theorem on_bessd_pebble_ready_k8s (s : CharmState) :
    (on_bessd_pebble_ready s).state.k8s = s.k8s := by
  rcases hr : s.ranRouteExec <;> rcases hd : s.defaultRouteExec <;>
    rcases hi : s.iptablesExec <;> rcases hp : s.poststartExec <;>
    simp [on_bessd_pebble_ready, prepare_bessd_container, hr, hd, hi, hp,
      HandlerOutcome.state, update_upf_relation] <;>
    split_ifs <;> rfl

theorem on_routectl_pebble_ready_k8s (s : CharmState) :
    (on_routectl_pebble_ready s).state.k8s = s.k8s := by
  unfold on_routectl_pebble_ready
  split_ifs <;> rfl

theorem on_web_pebble_ready_k8s (s : CharmState) :
    (on_web_pebble_ready s).state.k8s = s.k8s := by
  unfold on_web_pebble_ready
  split_ifs <;> rfl

theorem on_pfcp_agent_pebble_ready_k8s (s : CharmState) :
    (on_pfcp_agent_pebble_ready s).state.k8s = s.k8s := by
  unfold on_pfcp_agent_pebble_ready
  split_ifs <;> rfl

theorem on_upf_relation_joined_k8s (s : CharmState) :
    (on_upf_relation_joined s).state.k8s = s.k8s := by
  unfold on_upf_relation_joined
  split_ifs <;> rfl

theorem andThen_state_k8s (h : HandlerOutcome) (f : CharmState → HandlerOutcome)
    (hf : ∀ t, (f t).state.k8s = t.k8s) :
    (h.andThen f).state.k8s = h.state.k8s := by
  rcases h with ⟨t, tr⟩ | ⟨e, t, tr⟩
  · have h2 := hf t
    simp only [HandlerOutcome.andThen]
    rcases hft : f t with ⟨t2, tr2⟩ | ⟨e2, t2, tr2⟩ <;>
      rw [hft] at h2 <;> exact h2
  · rfl

theorem on_config_changed_k8s (s : CharmState) :
    (on_config_changed s).state.k8s = s.k8s := by
  unfold on_config_changed
  split_ifs <;> try rfl
  rw [andThen_state_k8s _ _ on_pfcp_agent_pebble_ready_k8s,
    andThen_state_k8s _ _ on_bessd_pebble_ready_k8s]
  rfl

theorem on_install_patched_mono (s : CharmState) (hp : s.k8s.statefulsetPatched = true) :
    (on_install s).state.k8s.statefulsetPatched = true := by
  rcases h1 : s.useSriov
  · rcases h2 : s.useHugepages
    · simp [on_install, h1, h2, HandlerOutcome.state, patch_statefulset_patched]
    · simp [on_install, h1, h2, HandlerOutcome.state, hp]
  · simp [on_install, h1, HandlerOutcome.state, hp]

/-- C2 counterexample: at a concrete state whose bessd container is not
connectable and whose feature flags are unset, `on_install` does not set
Waiting and does not defer; it performs resource-client calls (both
network attachment creations and the statefulset patch), refuting the
claim that such an invocation performs zero resource-client calls. -/
theorem on_install_ignores_connectivity :
    notConnState.bessd.canConnect = false ∧
    notConnState.useSriov = false ∧ notConnState.useHugepages = false ∧
    on_install notConnState =
      HandlerOutcome.ok { notConnState with k8s := ⟨[coreNadName, accessNadName], true⟩ }
        [Effect.createNAD accessNadName, Effect.createNAD coreNadName,
          Effect.patchStatefulset] := by
  refine ⟨rfl, rfl, rfl, ?_⟩
  rfl

/-- C2 (amended): it is `on_config_changed`, not `on_install`, that
guards on the primary container: with flags unset and bessd not
connectable it sets Waiting, defers, and performs zero artifact writes
and zero resource-client calls; `on_install` performs no connectability
check at all. -/
theorem config_changed_not_connectable (s : CharmState)
    (h1 : s.useSriov = false) (h2 : s.useHugepages = false)
    (h3 : s.bessd.canConnect = false) :
    on_config_changed s =
      HandlerOutcome.ok { s with status := Status.waiting bessdConnMsg }
        [Effect.setWaiting bessdConnMsg, Effect.deferEvent] := by
  simp [on_config_changed, h1, h2, h3]

/-- Witness for the amended C2 at a concrete state. -/
theorem config_changed_not_connectable_witness :
    on_config_changed notConnState =
      HandlerOutcome.ok { notConnState with status := Status.waiting bessdConnMsg }
        [Effect.setWaiting bessdConnMsg, Effect.deferEvent] :=
  config_changed_not_connectable notConnState rfl rfl rfl

/-- C3 counterexample: at a concrete state with the primary container
connectable and no unsupported flags, `on_install` performs no artifact
write at all — its effect trace is exactly the two network attachment
creations followed by the statefulset patch — refuting the claim that it
first writes the config and startup script artifacts. -/
theorem on_install_writes_no_artifacts :
    baseState.bessd.canConnect = true ∧
    baseState.useSriov = false ∧ baseState.useHugepages = false ∧
    bessd_config_file_is_written baseState = false ∧
    on_install baseState =
      HandlerOutcome.ok { baseState with k8s := ⟨[coreNadName, accessNadName], true⟩ }
        [Effect.createNAD accessNadName, Effect.createNAD coreNadName,
          Effect.patchStatefulset] := by
  refine ⟨rfl, rfl, rfl, rfl, ?_⟩
  rfl

/-- C3 (amended): with the flags unset, `on_install` performs exactly,
in order: create the access network attachment (skipped if present),
create the core network attachment (skipped if present), patch the
statefulset (skipped if already patched) — and no artifact writes; the
artifact writes happen in `on_config_changed` instead. -/
theorem on_install_effects (s : CharmState)
    (h1 : s.useSriov = false) (h2 : s.useHugepages = false) :
    ∃ k : K8sState,
      on_install s = HandlerOutcome.ok { s with k8s := k }
        ((if network_attachment_definition_created s.k8s accessNadName then []
          else [Effect.createNAD accessNadName]) ++
         (if network_attachment_definition_created s.k8s coreNadName then []
          else [Effect.createNAD coreNadName]) ++
         (if s.k8s.statefulsetPatched then [] else [Effect.patchStatefulset])) ∧
      k.statefulsetPatched = true ∧
      (∀ p, Effect.writeFile p ∉ (on_install s).trace) := by
  have hne : ¬ (coreNadName = accessNadName) := by decide
  refine ⟨(patch_statefulset (create_network_attachment_definitions s.k8s).1).1, ?_,
    patch_statefulset_patched _, ?_⟩
  · rcases ha : network_attachment_definition_created s.k8s accessNadName <;>
      rcases hc : network_attachment_definition_created s.k8s coreNadName <;>
      rcases hp : s.k8s.statefulsetPatched <;>
      simp [network_attachment_definition_created] at ha hc <;>
      simp [on_install, h1, h2, create_network_attachment_definitions,
        create_network_attachement_definition, patch_statefulset,
        network_attachment_definition_created, List.mem_cons, ha, hc, hp, hne]
  · intro p
    rcases ha : network_attachment_definition_created s.k8s accessNadName <;>
      rcases hc : network_attachment_definition_created s.k8s coreNadName <;>
      rcases hp : s.k8s.statefulsetPatched <;>
      simp [network_attachment_definition_created] at ha hc <;>
      simp [on_install, h1, h2, create_network_attachment_definitions,
        create_network_attachement_definition, patch_statefulset,
        network_attachment_definition_created, List.mem_cons, ha, hc, hp, hne,
        HandlerOutcome.trace]

/-- Witness for the amended C3 at a concrete state. -/
theorem on_install_effects_witness :
    ∃ k : K8sState,
      on_install baseState = HandlerOutcome.ok { baseState with k8s := k }
        ((if network_attachment_definition_created baseState.k8s accessNadName then []
          else [Effect.createNAD accessNadName]) ++
         (if network_attachment_definition_created baseState.k8s coreNadName then []
          else [Effect.createNAD coreNadName]) ++
         (if baseState.k8s.statefulsetPatched then [] else [Effect.patchStatefulset])) ∧
      k.statefulsetPatched = true ∧
      (∀ p, Effect.writeFile p ∉ (on_install baseState).trace) :=
  on_install_effects baseState rfl rfl

/-- C4 counterexample: at a concrete state satisfying all of the
handler's preconditions where the first one-shot command (the ran route
replace) exits non-zero, the sequence aborts after that one command but
the error is NOT propagated as an exception: `_on_bessd_pebble_ready`
catches the `ExecError`, sets Waiting and defers, completing normally.
This refutes the claim that the failure is propagated as an exception
that aborts the handler. -/
theorem bessd_ready_exec_error_caught :
    prepFailState.bessd.canConnect = true ∧
    bessd_config_file_is_written prepFailState = true ∧
    podstart_file_is_written prepFailState = true ∧
    prepFailState.k8s.statefulsetPatched = true ∧
    prepFailState.ranRouteExec = ExecResult.err 1 "ran route failed" ∧
    (on_bessd_pebble_ready prepFailState).isError = false ∧
    on_bessd_pebble_ready prepFailState =
      HandlerOutcome.ok { prepFailState with status := Status.waiting prepWaitMsg }
        [Effect.exec ranRouteCommand, Effect.setWaiting prepWaitMsg, Effect.deferEvent] := by
  refine ⟨rfl, ?_, ?_, rfl, rfl, ?_, ?_⟩ <;> rfl

/-- C4 (amended): during `on_bessd_pebble_ready`, a non-zero exit of any
command in the one-shot sequence aborts the sequence without attempting
the remaining commands, and the handler catches the `ExecError`: it sets
the Waiting prepare-container reason and defers, with no partial
continuation — no plan application (no add-layer, no replan), no status
recompute, and no relation publish. -/
theorem bessd_ready_one_shot_failure (s : CharmState)
    (hconn : s.bessd.canConnect = true)
    (hcfg : bessd_config_file_is_written s = true)
    (hpod : podstart_file_is_written s = true)
    (hpatch : s.k8s.statefulsetPatched = true)
    (hfail : (prepare_bessd_container s).2.isSome = true) :
    on_bessd_pebble_ready s =
      HandlerOutcome.ok { s with status := Status.waiting prepWaitMsg }
        ((prepare_bessd_container s).1 ++
          [Effect.setWaiting prepWaitMsg, Effect.deferEvent]) ∧
    (∀ c m, s.ranRouteExec = ExecResult.err c m →
      (prepare_bessd_container s).1 = [Effect.exec ranRouteCommand]) ∧
    (∀ c m, s.ranRouteExec = ExecResult.ok → s.defaultRouteExec = ExecResult.err c m →
      (prepare_bessd_container s).1 =
        [Effect.exec ranRouteCommand, Effect.exec defaultRouteCommand]) ∧
    (∀ c m, s.ranRouteExec = ExecResult.ok → s.defaultRouteExec = ExecResult.ok →
      s.iptablesExec = ExecResult.err c m →
      (prepare_bessd_container s).1 =
        [Effect.exec ranRouteCommand, Effect.exec defaultRouteCommand,
          Effect.exec iptablesCommand]) ∧
    (∀ name, Effect.addLayer name ∉ (on_bessd_pebble_ready s).trace) ∧
    (∀ name, Effect.replan name ∉ (on_bessd_pebble_ready s).trace) ∧
    Effect.recomputeStatus ∉ (on_bessd_pebble_ready s).trace ∧
    (∀ u, Effect.publish u ∉ (on_bessd_pebble_ready s).trace) := by
  rcases hr : s.ranRouteExec with _ | ⟨c1, m1⟩ <;>
    rcases hd : s.defaultRouteExec with _ | ⟨c2, m2⟩ <;>
    rcases hi : s.iptablesExec with _ | ⟨c3, m3⟩ <;>
    simp [prepare_bessd_container, hr, hd, hi] at hfail ⊢ <;>
    simp [on_bessd_pebble_ready, prepare_bessd_container, hconn, hcfg, hpod, hpatch,
      hr, hd, hi, HandlerOutcome.trace]

/-- Witness for the amended C4: the second one-shot command fails, the
sequence stops there, the handler returns Waiting + defer. -/
theorem bessd_ready_one_shot_failure_witness :
    on_bessd_pebble_ready prepFailState2 =
      HandlerOutcome.ok { prepFailState2 with status := Status.waiting prepWaitMsg }
        ((prepare_bessd_container prepFailState2).1 ++
          [Effect.setWaiting prepWaitMsg, Effect.deferEvent]) ∧
    (prepare_bessd_container prepFailState2).1 =
      [Effect.exec ranRouteCommand, Effect.exec defaultRouteCommand] :=
  ⟨(bessd_ready_one_shot_failure prepFailState2 rfl rfl rfl rfl rfl).1,
   (bessd_ready_one_shot_failure prepFailState2 rfl rfl rfl rfl rfl).2.2.1 2
     "default route failed" rfl rfl⟩

/-- C5: with the SR-IOV or the hugepages flag set, both `on_install` and
`on_config_changed` raise `NotImplementedError` before performing any
side effect: the state is unchanged and the effect trace is empty. -/
theorem unsupported_flags_raise_before_side_effects (s : CharmState)
    (h : s.useSriov = true ∨ s.useHugepages = true) :
    ∃ msg, on_install s = HandlerOutcome.error (CharmError.notImplemented msg) s [] ∧
      on_config_changed s = HandlerOutcome.error (CharmError.notImplemented msg) s [] := by
  rcases hs : s.useSriov
  · have hh : s.useHugepages = true := by
      rcases h with h | h
      · rw [hs] at h; cases h
      · exact h
    exact ⟨hugepagesMsg, by simp [on_install, hs, hh], by simp [on_config_changed, hs, hh]⟩
  · exact ⟨sriovMsg, by simp [on_install, hs], by simp [on_config_changed, hs]⟩

/-- Witness for C5 at a concrete state with the SR-IOV flag set. -/
theorem unsupported_flags_witness :
    ∃ msg, on_install sriovState = HandlerOutcome.error (CharmError.notImplemented msg)
        sriovState [] ∧
      on_config_changed sriovState =
        HandlerOutcome.error (CharmError.notImplemented msg) sriovState [] :=
  unsupported_flags_raise_before_side_effects sriovState (Or.inl rfl)

/-- C6: `on_bessd_pebble_ready` evaluates its preconditions in the fixed
order connectable, config file present, poststart file present,
statefulset patched, each failure setting a distinct Waiting reason; the
connectable and patched failures defer, while the two artifact failures
return without deferring. In particular, connectable with the config
artifact absent sets the Waiting config-file reason and returns with no
defer, no plan application and no one-shot command. -/
theorem bessd_ready_precondition_chain : ∀ s : CharmState,
    (s.bessd.canConnect = false →
      on_bessd_pebble_ready s =
        HandlerOutcome.ok { s with status := Status.waiting bessdConnMsg }
          [Effect.setWaiting bessdConnMsg, Effect.deferEvent]) ∧
    (s.bessd.canConnect = true → bessd_config_file_is_written s = false →
      on_bessd_pebble_ready s =
        HandlerOutcome.ok { s with status := Status.waiting configFileMsg }
          [Effect.setWaiting configFileMsg]) ∧
    (s.bessd.canConnect = true → bessd_config_file_is_written s = true →
      podstart_file_is_written s = false →
      on_bessd_pebble_ready s =
        HandlerOutcome.ok { s with status := Status.waiting podstartMsg }
          [Effect.setWaiting podstartMsg]) ∧
    (s.bessd.canConnect = true → bessd_config_file_is_written s = true →
      podstart_file_is_written s = true → s.k8s.statefulsetPatched = false →
      on_bessd_pebble_ready s =
        HandlerOutcome.ok { s with status := Status.waiting patchWaitMsg }
          [Effect.setWaiting patchWaitMsg, Effect.deferEvent]) ∧
    (bessdConnMsg ≠ configFileMsg ∧ bessdConnMsg ≠ podstartMsg ∧
      bessdConnMsg ≠ patchWaitMsg ∧ configFileMsg ≠ podstartMsg ∧
      configFileMsg ≠ patchWaitMsg ∧ podstartMsg ≠ patchWaitMsg) := by
  intro s
  refine ⟨?_, ?_, ?_, ?_, by decide⟩
  · intro h1
    simp [on_bessd_pebble_ready, h1]
  · intro h1 h2
    simp [on_bessd_pebble_ready, h1, h2]
  · intro h1 h2 h3
    simp [on_bessd_pebble_ready, h1, h2, h3]
  · intro h1 h2 h3 h4
    simp [on_bessd_pebble_ready, h1, h2, h3, h4]

/-- Witness for C6: a connectable bessd container with no config file
written yields Waiting(config file) with no defer. -/
theorem bessd_ready_chain_witness :
    on_bessd_pebble_ready baseState =
      HandlerOutcome.ok { baseState with status := Status.waiting configFileMsg }
        [Effect.setWaiting configFileMsg] :=
  (bessd_ready_precondition_chain baseState).2.1 rfl rfl

/-- C7: resource mutation is check-before-create/patch idempotent: each
network attachment is created exactly when the existence check reports
it absent, a second invocation on the resulting state creates nothing,
the statefulset patch is applied exactly when the patched check reports
it unpatched, and a second invocation patches nothing. -/
theorem resource_mutation_idempotent : ∀ k : K8sState,
    (Effect.createNAD accessNadName ∈ (create_network_attachment_definitions k).2 ↔
      network_attachment_definition_created k accessNadName = false) ∧
    (Effect.createNAD coreNadName ∈ (create_network_attachment_definitions k).2 ↔
      network_attachment_definition_created k coreNadName = false) ∧
    (create_network_attachment_definitions
      (create_network_attachment_definitions k).1).2 = [] ∧
    (Effect.patchStatefulset ∈ (patch_statefulset k).2 ↔ k.statefulsetPatched = false) ∧
    (patch_statefulset (patch_statefulset k).1).2 = [] := by
  intro k
  have hne : ¬ (coreNadName = accessNadName) := by decide
  have hne2 : ¬ (accessNadName = coreNadName) := by decide
  refine ⟨?_, ?_, ?_, ?_, ?_⟩
  · rcases ha : network_attachment_definition_created k accessNadName <;>
      rcases hc : network_attachment_definition_created k coreNadName <;>
      simp [network_attachment_definition_created] at ha hc <;>
      simp [create_network_attachment_definitions, create_network_attachement_definition,
        network_attachment_definition_created, List.mem_cons, ha, hc, hne, hne2]
  · rcases ha : network_attachment_definition_created k accessNadName <;>
      rcases hc : network_attachment_definition_created k coreNadName <;>
      simp [network_attachment_definition_created] at ha hc <;>
      simp [create_network_attachment_definitions, create_network_attachement_definition,
        network_attachment_definition_created, List.mem_cons, ha, hc, hne, hne2]
  · exact create_nads_trace_of_created _ (created_access_after_create k)
      (created_core_after_create k)
  · rcases hp : k.statefulsetPatched <;> simp [patch_statefulset, hp]
  · exact patch_trace_of_patched _ (patch_statefulset_patched k)

/-- C8: `on_remove` deletes each network attachment exactly when present
and changes nothing else — the bessd container (artifacts, plan), the
status and the relation data are untouched, and the statefulset patch is
left in place; moreover no handler ever unpatches the statefulset. -/
theorem on_remove_frame : ∀ s : CharmState,
    (∃ k tr, on_remove s = HandlerOutcome.ok { s with k8s := k } tr ∧
      k.statefulsetPatched = s.k8s.statefulsetPatched ∧
      (∀ e ∈ tr, e = Effect.deleteNAD accessNadName ∨ e = Effect.deleteNAD coreNadName) ∧
      (Effect.deleteNAD accessNadName ∈ tr ↔
        network_attachment_definition_created s.k8s accessNadName = true) ∧
      (Effect.deleteNAD coreNadName ∈ tr ↔
        network_attachment_definition_created s.k8s coreNadName = true)) ∧
    ((on_remove s).state.bessd = s.bessd ∧ (on_remove s).state.status = s.status ∧
      (on_remove s).state.relations = s.relations) ∧
    (s.k8s.statefulsetPatched = true →
      (on_install s).state.k8s.statefulsetPatched = true ∧
      (on_config_changed s).state.k8s.statefulsetPatched = true ∧
      (on_remove s).state.k8s.statefulsetPatched = true ∧
      (on_bessd_pebble_ready s).state.k8s.statefulsetPatched = true ∧
      (on_routectl_pebble_ready s).state.k8s.statefulsetPatched = true ∧
      (on_web_pebble_ready s).state.k8s.statefulsetPatched = true ∧
      (on_pfcp_agent_pebble_ready s).state.k8s.statefulsetPatched = true ∧
      (on_upf_relation_joined s).state.k8s.statefulsetPatched = true) := by
  intro s
  have hne : ¬ (coreNadName = accessNadName) := by decide
  have hne2 : ¬ (accessNadName = coreNadName) := by decide
  refine ⟨⟨(delete_network_attachment_definitions s.k8s).1,
      (delete_network_attachment_definitions s.k8s).2, rfl, delete_nads_patched _,
      ?_, ?_, ?_⟩, ⟨rfl, rfl, rfl⟩, ?_⟩
  · rcases ha : network_attachment_definition_created s.k8s accessNadName <;>
      rcases hc : network_attachment_definition_created s.k8s coreNadName <;>
      simp [network_attachment_definition_created] at ha hc <;>
      simp [delete_network_attachment_definitions, delete_network_attachment_definition,
        network_attachment_definition_created, List.mem_filter, ha, hc, hne, hne2]
  · rcases ha : network_attachment_definition_created s.k8s accessNadName <;>
      rcases hc : network_attachment_definition_created s.k8s coreNadName <;>
      simp [network_attachment_definition_created] at ha hc <;>
      simp [delete_network_attachment_definitions, delete_network_attachment_definition,
        network_attachment_definition_created, List.mem_filter, ha, hc, hne, hne2]
  · rcases ha : network_attachment_definition_created s.k8s accessNadName <;>
      rcases hc : network_attachment_definition_created s.k8s coreNadName <;>
      simp [network_attachment_definition_created] at ha hc <;>
      simp [delete_network_attachment_definitions, delete_network_attachment_definition,
        network_attachment_definition_created, List.mem_filter, ha, hc, hne, hne2]
  · intro hp
    refine ⟨on_install_patched_mono s hp, ?_, ?_, ?_, ?_, ?_, ?_, ?_⟩
    · rw [on_config_changed_k8s]; exact hp
    · show (delete_network_attachment_definitions s.k8s).1.statefulsetPatched = true
      rw [delete_nads_patched]; exact hp
    · rw [on_bessd_pebble_ready_k8s]; exact hp
    · rw [on_routectl_pebble_ready_k8s]; exact hp
    · rw [on_web_pebble_ready_k8s]; exact hp
    · rw [on_pfcp_agent_pebble_ready_k8s]; exact hp
    · rw [on_upf_relation_joined_k8s]; exact hp

/-- Witness for C8 at a concrete patched state. -/
theorem on_remove_frame_witness :
    (on_install prepFailState).state.k8s.statefulsetPatched = true :=
  ((on_remove_frame prepFailState).2.2 rfl).1

/-- C9: `on_upf_relation_joined` is a strict no-op — no publish, no
status change, no defer — when the bessd service is not reported
running; otherwise it publishes the hostname derived as
`<name>.<namespace>.svc.cluster.local`, which for app `upf-operator` in
namespace `whatever` is exactly `upf-operator.whatever.svc.cluster.local`. -/
theorem relation_joined_behavior : ∀ s : CharmState,
    (service_is_running (obsOf s.bessd bessdServiceName) = false →
      on_upf_relation_joined s = HandlerOutcome.ok s []) ∧
    (service_is_running (obsOf s.bessd bessdServiceName) = true →
      on_upf_relation_joined s =
        HandlerOutcome.ok
          { s with relations :=
              (s.relations.map (fun _ => some (upf_hostname s.appName s.namespaceName))) }
          [Effect.publish (upf_hostname s.appName s.namespaceName)]) ∧
    upf_hostname "upf-operator" "whatever" = "upf-operator.whatever.svc.cluster.local" := by
  intro s
  refine ⟨?_, ?_, rfl⟩
  · intro h
    simp [on_upf_relation_joined, h]
  · intro h
    simp [on_upf_relation_joined, update_upf_relation, h]

/-- Witness for C9: a no-op when the bessd service is not running, a
publish of the hostname when it is. -/
theorem relation_joined_witness :
    on_upf_relation_joined baseState = HandlerOutcome.ok baseState [] ∧
    on_upf_relation_joined bessdRunningState =
      HandlerOutcome.ok
        { bessdRunningState with relations :=
            (bessdRunningState.relations.map (fun _ =>
              some (upf_hostname bessdRunningState.appName bessdRunningState.namespaceName))) }
        [Effect.publish
          (upf_hostname bessdRunningState.appName bessdRunningState.namespaceName)] :=
  ⟨(relation_joined_behavior baseState).1 rfl,
   (relation_joined_behavior bessdRunningState).2.1 rfl⟩
